import Mathlib

/-!
EasyLead — lead-normalization pipeline, formalized

A shallow embedding of the lead-retrieval / normalization / distance /
history code of the EasyLead repository.

The repository ships three revisions of the retrieval service:

* `src/services/businessService.ts` (the file imported by `src/App.tsx`),
  embedded below under the `Main` namespace;
* two further revisions of the same file whose names were lost
  (`src/unnamed/part_000` and `src/unnamed/part_001`), embedded under the
  `V0` and `V1` namespaces respectively.

JavaScript runtime values arriving from `JSON.parse` are modelled by
`JSValue`; numbers are modelled as rationals (`ℚ`).  `JSON.parse` can never
produce `NaN` or infinities, so raw record fields carry plain rationals;
`NaN` only arises from the `Number(...)` coercion, which therefore returns
the separate type `JSNum`.  External builtins used by the code
(`Number(...)`, `String.prototype.trim`, `toLowerCase`, `String(...)`,
`encodeURIComponent`, `Math.atan2`) are modelled explicitly as executable
Lean functions, restricted where noted.
-/

namespace EasyLead

/-- A JavaScript value as it can appear in a field of a raw record parsed
from the model's JSON response: `undefined` (field absent), `null`,
a boolean, a (finite, `JSON.parse`-produced) number, or a string. -/
inductive JSValue where
  | vUndefined : JSValue
  | vNull : JSValue
  | vBool : Bool → JSValue
  | vNum : ℚ → JSValue
  | vStr : String → JSValue
  deriving DecidableEq, Repr

/-- Result of the JavaScript `Number(...)` coercion: either `NaN` or a
finite number. -/
inductive JSNum where
  | nan : JSNum
  | val : ℚ → JSNum
  deriving DecidableEq, Repr

/-- JavaScript truthiness of a `JSValue`.  `undefined`, `null`, `false`,
`0` and `""` are falsy; everything else is truthy. -/
def jsTruthy : JSValue → Bool
  | .vUndefined => false
  | .vNull => false
  | .vBool b => b
  | .vNum q => q != 0
  | .vStr s => s != ""

/-- JavaScript whitespace test for a character (ASCII whitespace; models
the character class trimmed by `String.prototype.trim`). -/
def jsWS (c : Char) : Bool :=
  c = ' ' || c = '\t' || c = '\n' || c = '\r'

/-- Model of `String.prototype.trim` (an external builtin): drop
whitespace from both ends. -/
def jsTrimL (l : List Char) : List Char :=
  ((l.dropWhile jsWS).reverse.dropWhile jsWS).reverse

/-- Trim of a packed string. -/
def jsTrim (s : String) : String :=
  (jsTrimL s.toList).asString

/-- Model of `String.prototype.toLowerCase` (ASCII case folding). -/
def jsLower (s : String) : String :=
  (s.toList.map Char.toLower).asString

/-- All decimal-digit characters of a string, in order (the result of
`s.replace(/[^0-9]/g, '')`). -/
def digitsOf (s : String) : List Char :=
  s.toList.filter Char.isDigit

/-- Whether `pat` occurs as a contiguous run inside `l`
(JavaScript `String.prototype.includes`). -/
def hasRun (pat : List Char) : List Char → Bool
  | [] => pat.isEmpty
  | c :: rest => pat.isPrefixOf (c :: rest) || hasRun pat rest

/-- Substring containment, as in JavaScript string includes. -/
def jsIncludes (s pat : String) : Bool :=
  hasRun pat.toList s.toList

/-- The regular expression `/^(.)\1+$/`: the whole string is one character
repeated at least twice. -/
def repeatedRun : List Char → Bool
  | c₁ :: c₂ :: rest => (c₂ :: rest).all (fun c => c = c₁)
  | _ => false

/-- Model of the JavaScript `String(...)` coercion for the values a raw
record field can hold.  Only its behavior on strings matters to the claims
below; number formatting is restricted to integers (noted, not used by any
theorem). -/
def jsToString : JSValue → String
  | .vUndefined => "undefined"
  | .vNull => "null"
  | .vBool b => if b then "true" else "false"
  | .vNum q => if q.den = 1 then toString q.num else toString q
  | .vStr s => s

/-- Decimal value of a digit-character list (most significant first). -/
def digitsVal (l : List Char) : ℕ :=
  l.foldl (fun a c => 10 * a + (c.toNat - 48)) 0

/-- Parse an unsigned decimal literal (`123`, `1.5`, `.5`, `5.`);
any other shape is rejected. -/
def strToNumCore (l : List Char) : Option ℚ :=
  let intPart := l.takeWhile Char.isDigit
  let rest := l.dropWhile Char.isDigit
  match rest with
  | [] => if intPart.isEmpty then none else some (digitsVal intPart)
  | '.' :: frac =>
      if frac.all Char.isDigit then
        if intPart.isEmpty && frac.isEmpty then none
        else some ((digitsVal intPart : ℚ) + (digitsVal frac : ℚ) / (10 ^ frac.length))
      else none
  | _ => none

/-- Model of `Number(s)` on a string (the ECMAScript StringToNumber
conversion, restricted to optionally-signed decimal literals; exponent,
hex and `Infinity` forms are out of the model and return `NaN`).
Whitespace is trimmed and the empty string converts to `0`. -/
def strToNum (s : String) : JSNum :=
  match jsTrimL s.toList with
  | [] => .val 0
  | '-' :: rest => match strToNumCore rest with
      | some q => .val (-q)
      | none => .nan
  | '+' :: rest => match strToNumCore rest with
      | some q => .val q
      | none => .nan
  | l => match strToNumCore l with
      | some q => .val q
      | none => .nan

/-- Model of the JavaScript `Number(...)` coercion (external builtin). -/
def toNumber : JSValue → JSNum
  | .vUndefined => .nan
  | .vNull => .val 0
  | .vBool b => .val (if b then 1 else 0)
  | .vNum q => .val q
  | .vStr s => strToNum s

/-- The pattern `Number(x) || 0`: a `NaN` result is falsy and is replaced
by `0`; a zero result is falsy too but `0` is what it already is; any
other number is truthy and kept. -/
def numOr0 : JSNum → ℚ
  | .nan => 0
  | .val q => q

/-- The pattern `x || null`: a falsy value becomes `null`, a truthy value
is kept as-is. -/
def jsOrNull (v : JSValue) : JSValue :=
  if jsTruthy v then v else .vNull

/-- Uppercase hexadecimal digit (`0 ≤ n < 16`). -/
def hexDigitChar (n : ℕ) : Char :=
  if n < 10 then Char.ofNat (48 + n) else Char.ofNat (55 + n)

/-- Characters `encodeURIComponent` leaves unescaped. -/
def isURIMark (c : Char) : Bool :=
  c.isAlpha || c.isDigit || c = '-' || c = '_' || c = '.' || c = '!' ||
    c = '~' || c = '*' || c = Char.ofNat 39 || c = '(' || c = ')'

/-- Percent-encoding of one character (UTF-8 bytes, `%XX`). -/
def encodeChar (c : Char) : List Char :=
  if isURIMark c then [c]
  else (String.toUTF8 (String.mk [c])).toList.flatMap
    (fun b => ['%', hexDigitChar (b.toNat / 16), hexDigitChar (b.toNat % 16)])

/-- Model of the JavaScript `encodeURIComponent` builtin. -/
def encodeURIComponent (s : String) : String :=
  (s.toList.flatMap encodeChar).asString

/-- Decimal digit characters of a natural number, most significant first:
the interpolation `${n}` of a nonnegative integer such as `Date.now()` or
a map index. -/
def natChars (n : ℕ) : List Char :=
  if _h : n < 10 then [Nat.digitChar n]
  else natChars (n / 10) ++ [Nat.digitChar (n % 10)]
termination_by n
decreasing_by exact Nat.div_lt_self (by omega) (by omega)

/-- The id template `` `tag${ts}-${idx}` `` shared by all three revisions
(`lead-`, `fb-` or `fallback-` tag). -/
def mkId (tag : String) (ts idx : ℕ) : String :=
  tag ++ (natChars ts).asString ++ "-" ++ (natChars idx).asString

/-- The relevant fields of one untrusted raw record, as parsed from the
model's JSON response.  A field the response omits is `vUndefined`. -/
structure RawRecord where
  name : JSValue := .vUndefined
  address : JSValue := .vUndefined
  phone : JSValue := .vUndefined
  website : JSValue := .vUndefined
  email : JSValue := .vUndefined
  lat : JSValue := .vUndefined
  lng : JSValue := .vUndefined
  establishedDate : JSValue := .vUndefined
  rating : JSValue := .vUndefined
  userRatingsTotal : JSValue := .vUndefined
  deriving DecidableEq, Repr

/-- A normalized lead as the service actually produces it.  Fields that
some revision can fill with an unchecked raw value (the fallback paths
spread `...item`) are typed `JSValue`; fields every path fills with a
string are `String`. -/
structure Lead where
  id : String
  name : JSValue
  address : JSValue
  phone : JSValue
  website : JSValue
  email : JSValue
  owner : JSValue
  lat : JSValue
  lng : JSValue
  distance : JSValue
  source : String
  mapsUrl : String
  lastUpdated : String
  establishedDate : JSValue
  rating : JSValue
  userRatingsTotal : JSValue
  deriving DecidableEq, Repr

/-- The maps-search URL prefix shared by every revision. -/
def mapsUrlBase : String := "https://www.google.com/maps/search/?api=1&query="

/-- Map with the element index, starting at `k`: the callback shape of
`Array.prototype.map((item, index) => ...)`. -/
def mapIdxFrom (f : ℕ → α → β) : ℕ → List α → List β
  | _, [] => []
  | k, a :: as => f k a :: mapIdxFrom f (k + 1) as

namespace Main

/-- The phone cleaning of `src/services/businessService.ts`
(`findBusinessLeads`, lines 74–95): a string is trimmed and lowercased;
if empty, one of the textual null-markers, or containing `not available`,
`000000` or `1234567890`, the phone becomes `null`; otherwise the trimmed
original is kept.  A non-string phone becomes `null`. -/
def phoneFilter : JSValue → JSValue
  | .vStr s =>
      let p := jsLower (jsTrim s)
      if p == "" || p == "null" || p == "na" || p == "n/a" || p == "none" ||
          p == "undefined" || p == "not found" || p == "missing" ||
          jsIncludes p "not available" || jsIncludes p "000000" ||
          jsIncludes p "1234567890"
      then .vNull else .vStr (jsTrim s)
  | _ => .vNull

/-- The per-record normalizer of `src/services/businessService.ts`
(`findBusinessLeads`, lines 73–118).  `ts` is the `Date.now()` reading for
this record, `today` the date part of `new Date().toISOString()`. -/
def normalize (ts : ℕ) (today : String) (index : ℕ) (item : RawRecord) : Lead :=
  let name := if jsTruthy item.name then item.name else .vStr "Unknown Business"
  let address := if jsTruthy item.address then item.address else .vStr "Address unavailable"
  { id := mkId "lead-" ts index
    name := name
    address := address
    phone := phoneFilter item.phone
    website := jsOrNull item.website
    email := jsOrNull item.email
    owner := .vNull
    lat := .vNum (match item.lat with | .vNum q => q | _ => 0)
    lng := .vNum (match item.lng with | .vNum q => q | _ => 0)
    distance := .vNull
    source := "Google Search"
    mapsUrl := mapsUrlBase ++ encodeURIComponent (jsToString name ++ " " ++ jsToString address)
    lastUpdated := today
    establishedDate := jsOrNull item.establishedDate
    rating := jsOrNull item.rating
    userRatingsTotal := jsOrNull item.userRatingsTotal }

/-- The batch normalization `results.map((item, index) => ...)` of
`src/services/businessService.ts`.  `tsOf i` is the `Date.now()` reading
while record `i` is mapped (the clock may tick during the map). -/
def normalizeBatch (tsOf : ℕ → ℕ) (today : String) (items : List RawRecord) : List Lead :=
  mapIdxFrom (fun i item => normalize (tsOf i) today i item) 0 items

/-- The phone cleaning of `quickFallback` in
`src/services/businessService.ts` (lines 140–145): only the empty string
and the four markers `null`, `na`, `n/a`, `none` (after trim+lowercase)
are nulled; anything else — including placeholder digit strings — is kept
as the original, untrimmed string.  A non-string phone becomes `null`. -/
def fbPhone : JSValue → JSValue
  | .vStr s =>
      let p := jsLower (jsTrim s)
      if p == "" || p == "null" || p == "na" || p == "n/a" || p == "none"
      then .vNull else .vStr s
  | _ => .vNull

/-- The per-record mapper of `quickFallback` in
`src/services/businessService.ts` (lines 139–158): spreads the raw item
and overrides `id`, `phone`, `source`, `mapsUrl`, `lastUpdated`,
`establishedDate`, `rating` and `userRatingsTotal`.  Raw fields the model
does not carry (`owner`, `distance`) come out `undefined`. -/
def fbNormalize (ts : ℕ) (today : String) (index : ℕ) (item : RawRecord) : Lead :=
  { id := mkId "fb-" ts index
    name := item.name
    address := item.address
    phone := fbPhone item.phone
    website := item.website
    email := item.email
    owner := .vUndefined
    lat := item.lat
    lng := item.lng
    distance := .vUndefined
    source := "Google Search"
    mapsUrl := mapsUrlBase ++ encodeURIComponent (jsToString item.name ++ " " ++ jsToString item.address)
    lastUpdated := today
    establishedDate := jsOrNull item.establishedDate
    rating := jsOrNull item.rating
    userRatingsTotal := jsOrNull item.userRatingsTotal }

/-- The batch mapper of `quickFallback` in `src/services/businessService.ts`. -/
def fbBatch (tsOf : ℕ → ℕ) (today : String) (items : List RawRecord) : List Lead :=
  mapIdxFrom (fun i item => fbNormalize (tsOf i) today i item) 0 items

end Main

namespace V0

/-- The per-record normalizer of the `src/unnamed/part_000` revision
(`findBusinessLeads`, lines 69–91): `phone` is `item.phone || null` (no
plausibility filter in this revision), `lat`/`lng` are `Number(...) || 0`,
`rating`/`userRatingsTotal` are kept only when number-typed. -/
def normalize (ts : ℕ) (today : String) (index : ℕ) (item : RawRecord) : Lead :=
  let name := if jsTruthy item.name then item.name else .vStr "Business Name Unknown"
  let address := if jsTruthy item.address then item.address else .vStr "Address Unknown"
  { id := mkId "lead-" ts index
    name := name
    address := address
    phone := jsOrNull item.phone
    website := jsOrNull item.website
    email := jsOrNull item.email
    owner := .vNull
    lat := .vNum (numOr0 (toNumber item.lat))
    lng := .vNum (numOr0 (toNumber item.lng))
    distance := .vNull
    source := "Google Search"
    mapsUrl := mapsUrlBase ++ encodeURIComponent (jsToString name ++ " " ++ jsToString address)
    lastUpdated := today
    establishedDate := jsOrNull item.establishedDate
    rating := match item.rating with | .vNum q => .vNum q | _ => .vNull
    userRatingsTotal := match item.userRatingsTotal with | .vNum q => .vNum q | _ => .vNull }

/-- The batch normalization of the `part_000` revision. -/
def normalizeBatch (tsOf : ℕ → ℕ) (today : String) (items : List RawRecord) : List Lead :=
  mapIdxFrom (fun i item => normalize (tsOf i) today i item) 0 items

/-- The per-record mapper of `quickFallback` in the `part_000` revision
(lines 109–115): spreads the raw item and overrides only `id`, `source`,
`mapsUrl` and `lastUpdated` — the phone passes through raw. -/
def fbNormalize (ts : ℕ) (today : String) (index : ℕ) (item : RawRecord) : Lead :=
  { id := mkId "fallback-" ts index
    name := item.name
    address := item.address
    phone := item.phone
    website := item.website
    email := item.email
    owner := .vUndefined
    lat := item.lat
    lng := item.lng
    distance := .vUndefined
    source := "Google Search"
    mapsUrl := mapsUrlBase ++ encodeURIComponent (jsToString item.name ++ " " ++ jsToString item.address)
    lastUpdated := today
    establishedDate := item.establishedDate
    rating := item.rating
    userRatingsTotal := item.userRatingsTotal }

/-- The batch mapper of `quickFallback` in the `part_000` revision. -/
def fbBatch (tsOf : ℕ → ℕ) (today : String) (items : List RawRecord) : List Lead :=
  mapIdxFrom (fun i item => fbNormalize (tsOf i) today i item) 0 items

end V0

namespace V1

/-- The "rigorous phone validation" of the `src/unnamed/part_001` revision
(`findBusinessLeads`, lines 79–94):
`let phone = item.phone ? String(item.phone).trim() : null;` then, only
when the resulting string is truthy, reject it (set `null`) when its digit
string is shorter than 7, matches `/^(.)\1+$/`, or equals `1234567890`,
or when the lowercased string contains `null`, `not found` or `hidden`.
Note the guard `if (phone)`: a phone that trims to the empty string skips
the filter and is kept as `""`. -/
def phoneFilter (v : JSValue) : JSValue :=
  if jsTruthy v then
    let ph := jsTrim (jsToString v)
    if ph == "" then .vStr ph
    else
      let digits := digitsOf ph
      let pLower := jsLower ph
      if decide (digits.length < 7) || repeatedRun digits ||
          digits == "1234567890".toList || jsIncludes pLower "null" ||
          jsIncludes pLower "not found" || jsIncludes pLower "hidden"
      then .vNull else .vStr ph
  else .vNull

/-- The per-record normalizer of the `part_001` revision
(`findBusinessLeads`, lines 75–114). -/
def normalize (ts : ℕ) (today : String) (index : ℕ) (item : RawRecord) : Lead :=
  let name := if jsTruthy item.name then item.name else .vStr "Business Name Unknown"
  let address := if jsTruthy item.address then item.address else .vStr "Address Unknown"
  { id := mkId "lead-" ts index
    name := name
    address := address
    phone := phoneFilter item.phone
    website := jsOrNull item.website
    email := jsOrNull item.email
    owner := .vNull
    lat := .vNum (numOr0 (toNumber item.lat))
    lng := .vNum (numOr0 (toNumber item.lng))
    distance := .vNull
    source := "Google Search"
    mapsUrl := mapsUrlBase ++ encodeURIComponent (jsToString name ++ " " ++ jsToString address)
    lastUpdated := today
    establishedDate := jsOrNull item.establishedDate
    rating := match item.rating with | .vNum q => .vNum q | _ => .vNull
    userRatingsTotal := match item.userRatingsTotal with | .vNum q => .vNum q | _ => .vNull }

/-- The batch normalization of the `part_001` revision. -/
def normalizeBatch (tsOf : ℕ → ℕ) (today : String) (items : List RawRecord) : List Lead :=
  mapIdxFrom (fun i item => normalize (tsOf i) today i item) 0 items

end V1

/-- The missing-credential test of the `part_000`/`part_001` revisions
(lines 8–12): `!apiKey || apiKey === "undefined" || apiKey === ""`.
`none` models an unset `process.env.API_KEY` (the value `undefined`). -/
def credentialMissing : Option String → Bool
  | none => true
  | some k => k == "" || k == "undefined"

/-- The exact message of the error thrown when the credential is absent
(`part_000`/`part_001`, line 11). -/
def apiKeyMissingMsg : String :=
  "API_KEY_MISSING: Please add your Gemini API Key to Vercel Environment Variables."

/-- How the code itself classifies an error as the missing-credential
error: `error.message?.includes("API_KEY_MISSING")` (`part_000` line 95). -/
def isMissingCredentialError (msg : String) : Bool :=
  jsIncludes msg "API_KEY_MISSING"

/-- The external world one call of `findBusinessLeads` interacts with:
the configured credential, the outcome of the primary
`generateContent` + response-text + JSON-parse chain (an error message,
or the parsed array of raw records), the outcome of the same chain inside
`quickFallback`, the clock, and today's date string. -/
structure Env where
  apiKey : Option String
  primary : Except String (List RawRecord)
  fallback : Except String (List RawRecord)
  now : ℕ → ℕ
  today : String

/-- What one call of `findBusinessLeads` returns to its caller (a resolved
lead list, or a raised error message), together with whether
`quickFallback` was invoked on the way. -/
structure FindResult where
  result : Except String (List Lead)
  fallbackInvoked : Bool
  deriving Repr

namespace V0

/-- Control flow of `findBusinessLeads` in the `part_000` revision:
the credential test throws before the `try` block (so before any network
interaction); inside `catch`, an `API_KEY_MISSING` message is re-thrown
and every other error falls through to `quickFallback`, whose own `catch`
returns `[]`. -/
def findBusinessLeads (env : Env) : FindResult :=
  if credentialMissing env.apiKey then
    { result := .error apiKeyMissingMsg, fallbackInvoked := false }
  else
    match env.primary with
    | .ok items =>
        { result := .ok (normalizeBatch env.now env.today items), fallbackInvoked := false }
    | .error msg =>
        if isMissingCredentialError msg then
          { result := .error msg, fallbackInvoked := false }
        else
          match env.fallback with
          | .ok items =>
              { result := .ok (fbBatch env.now env.today items), fallbackInvoked := true }
          | .error _ =>
              { result := .ok [], fallbackInvoked := true }

end V0

namespace Main

/-- Control flow of `findBusinessLeads` in
`src/services/businessService.ts` (lines 28–124): this revision has no
credential test, and its `catch` (lines 120–123) sends **every** error to
`quickFallback`; `quickFallback`'s own `catch` (lines 159–161) returns
`[]`. -/
def findBusinessLeads (env : Env) : FindResult :=
  match env.primary with
  | .ok items =>
      { result := .ok (normalizeBatch env.now env.today items), fallbackInvoked := false }
  | .error _ =>
      match env.fallback with
      | .ok items =>
          { result := .ok (fbBatch env.now env.today items), fallbackInvoked := true }
      | .error _ =>
          { result := .ok [], fallbackInvoked := true }

end Main

/-- The user's coordinates as obtained from geolocation. -/
structure Origin where
  lat : ℝ
  lng : ℝ

/-- A lead as the distance step of `src/App.tsx` sees it: the primary
normalizers always produce numeric `lat`/`lng` (never `NaN`, because raw
records come from `JSON.parse`), so coordinates are modelled as reals and
truthiness of a coordinate is `≠ 0`. -/
structure DLead where
  id : String
  phone : Option String
  lat : ℝ
  lng : ℝ
  distance : Option ℝ

/-- Model of `Math.atan2 y x` (external builtin) on the reals. -/
noncomputable def atan2 (y x : ℝ) : ℝ :=
  if 0 < x then Real.arctan (y / x)
  else if x < 0 ∧ 0 ≤ y then Real.arctan (y / x) + Real.pi
  else if x < 0 ∧ y < 0 then Real.arctan (y / x) - Real.pi
  else if x = 0 ∧ 0 < y then Real.pi / 2
  else if x = 0 ∧ y < 0 then -(Real.pi / 2)
  else 0

/-- Modelled from the spec: the haversine great-circle distance of §4.3,
Earth radius 6371 km, coordinates in degrees —
`a = sin²(Δlat/2) + cos(lat1)·cos(lat2)·sin²(Δlng/2)`,
`distance = 2·R·atan2(√a, √(1−a))`. -/
noncomputable def haversineSpec (lat1 lon1 lat2 lon2 : ℝ) : ℝ :=
  let R : ℝ := 6371
  let dLat := (lat2 - lat1) * (Real.pi / 180)
  let dLon := (lon2 - lon1) * (Real.pi / 180)
  let a := Real.sin (dLat / 2) * Real.sin (dLat / 2) +
    Real.cos (lat1 * (Real.pi / 180)) * Real.cos (lat2 * (Real.pi / 180)) *
      (Real.sin (dLon / 2) * Real.sin (dLon / 2))
  let c := 2 * atan2 (Real.sqrt a) (Real.sqrt (1 - a))
  R * c

/-- The function calculateDistance of `src/services/businessService.ts`
(lines 164–172): a truthiness guard — `!lat1 || !lon1 || !lat2 || !lon2`
returns `0`, so any zero argument (origin or lead) short-circuits — and
otherwise the haversine formula with `R = 6371`. -/
noncomputable def calculateDistance (lat1 lon1 lat2 lon2 : ℝ) : ℝ :=
  if lat1 = 0 ∨ lon1 = 0 ∨ lat2 = 0 ∨ lon2 = 0 then 0
  else
    let R : ℝ := 6371
    let dLat := (lat2 - lat1) * (Real.pi / 180)
    let dLon := (lon2 - lon1) * (Real.pi / 180)
    let a := Real.sin (dLat / 2) * Real.sin (dLat / 2) +
      Real.cos (lat1 * (Real.pi / 180)) * Real.cos (lat2 * (Real.pi / 180)) *
        (Real.sin (dLon / 2) * Real.sin (dLon / 2))
    let c := 2 * atan2 (Real.sqrt a) (Real.sqrt (1 - a))
    R * c

/-- The body of `results.map(lead => ...)` in `performSearch`
(`src/App.tsx`, lines 103–108): when `userCoords` is present and both
lead coordinates are truthy, the distance is filled in from
`calculateDistance(userCoords.lat, userCoords.lng, lead.lat, lead.lng)`;
otherwise the lead is returned unchanged. -/
noncomputable def annotateLead (userCoords : Option Origin) (lead : DLead) : DLead :=
  match userCoords with
  | some o =>
      if lead.lat ≠ 0 ∧ lead.lng ≠ 0 then
        { lead with distance := some (calculateDistance o.lat o.lng lead.lat lead.lng) }
      else lead
  | none => lead

/-- The distance-annotation map of `performSearch` (`src/App.tsx`,
lines 103–108). -/
noncomputable def annotate (userCoords : Option Origin) (leads : List DLead) : List DLead :=
  leads.map (annotateLead userCoords)

/-- A query as submitted (`src/types`, used by the history). -/
structure SearchQuery where
  city : String
  categories : List String
  radius : ℚ
  deriving DecidableEq, Repr

/-- One history entry (`SearchHistory` in `src/App.tsx`). -/
structure SearchHistoryEntry where
  id : String
  query : SearchQuery
  timestamp : String
  resultCount : ℕ
  deriving DecidableEq, Repr

namespace History

/-- The history update of `performSearch` (`src/App.tsx`, lines 122–127):
drop every prior entry whose city matches and whose category array
stringifies identically (`JSON.stringify` on arrays of strings is
injective, so that comparison is order-sensitive list equality), put the
new entry in front, and keep at most `1 + 14` entries. -/
def record (entry : SearchHistoryEntry) (prev : List SearchHistoryEntry) : List SearchHistoryEntry :=
  let filtered := prev.filter fun h =>
    !(h.query.city == entry.query.city && h.query.categories == entry.query.categories)
  entry :: filtered.take 14

end History

/-- A plausible 10-digit phone string, in the sense of §8 of the spec:
after trimming it carries exactly ten digits, they are not a single
repeated digit, they are not the canonical placeholder `1234567890`, and
the lowercased string contains none of the textual markers the filter
looks for. -/
def plausible10 (s : String) : Bool :=
  (digitsOf (jsTrim s)).length == 10 &&
    !repeatedRun (digitsOf (jsTrim s)) &&
    digitsOf (jsTrim s) != "1234567890".toList &&
    !jsIncludes (jsLower (jsTrim s)) "null" &&
    !jsIncludes (jsLower (jsTrim s)) "not found" &&
    !jsIncludes (jsLower (jsTrim s)) "hidden"

/-- The consecutive indices `k, k+1, …, k+n-1` handed out by
`Array.prototype.map`. -/
def idxFrom : ℕ → ℕ → List ℕ
  | _, 0 => []
  | k, n + 1 => k :: idxFrom (k + 1) n

/-! Section: Shared lemmas -/

theorem mapIdxFrom_length (f : ℕ → α → β) (k : ℕ) (l : List α) :
    (mapIdxFrom f k l).length = l.length := by
  induction l generalizing k with
  | nil => rfl
  | cons a as ih => simp [mapIdxFrom, ih]

/-! Section: C1 — missing credential rejects before any network interaction -/

/-- Claim C1. In the revision that implements the credential gate
(`part_000`, lines 8–12 and 93–98): whenever no usable API key is
configured, `findBusinessLeads` rejects with the `API_KEY_MISSING` error
(the error the code itself classifies as the missing-credential error),
the fallback is never invoked, and the outcome does not depend on the
primary or fallback network outcomes at all — the rejection happens
before any network call. -/
theorem c1_missing_credential_rejects (env : Env)
    (h : credentialMissing env.apiKey = true) :
    (V0.findBusinessLeads env).result = .error apiKeyMissingMsg ∧
    isMissingCredentialError apiKeyMissingMsg = true ∧
    (V0.findBusinessLeads env).fallbackInvoked = false ∧
    (∀ p f, V0.findBusinessLeads { env with primary := p, fallback := f } =
      V0.findBusinessLeads env) := by
  refine ⟨?_, by decide, ?_, ?_⟩ <;>
    simp [V0.findBusinessLeads, h]

/-- Witness for C1 at a concrete environment with no key configured. -/
theorem c1_missing_credential_rejects_witness :
    credentialMissing (none : Option String) = true ∧
    (V0.findBusinessLeads ⟨none, .ok [], .ok [], fun _ => 0, ""⟩).result =
      .error apiKeyMissingMsg ∧
    (V0.findBusinessLeads ⟨none, .ok [], .ok [], fun _ => 0, ""⟩).fallbackInvoked = false := by
  have h := c1_missing_credential_rejects ⟨none, .ok [], .ok [], fun _ => 0, ""⟩ (by decide)
  exact ⟨by decide, h.1, h.2.2.1⟩

/-! Section: C4 — rating kept iff number-typed, no clamping -/

/-- Claim C4. In the `part_000` revision (lines 88–89): the normalized
rating equals the raw rating exactly when the raw rating is
number-typed — whatever its value, clamping included out-of-range values —
and is `null` otherwise. -/
theorem c4_rating_typeof (ts : ℕ) (today : String) (i : ℕ) (item : RawRecord) :
    (∀ q : ℚ, item.rating = .vNum q → (V0.normalize ts today i item).rating = .vNum q) ∧
    ((∀ q : ℚ, item.rating ≠ .vNum q) → (V0.normalize ts today i item).rating = .vNull) := by
  constructor
  · intro q hq
    show (match item.rating with | .vNum q => JSValue.vNum q | _ => .vNull) = _
    rw [hq]
  · intro hq
    show (match item.rating with | .vNum q => JSValue.vNum q | _ => .vNull) = _
    cases hr : item.rating with
    | vNum q => exact absurd hr (hq q)
    | _ => rfl

/-- Witness for C4: a numeric rating of `7` — outside `[0, 5]` — is passed
through unchanged, demonstrating the absence of clamping. -/
theorem c4_rating_typeof_witness :
    ({ rating := .vNum 7 } : RawRecord).rating = .vNum 7 ∧
    (V0.normalize 0 "" 0 { rating := .vNum 7 }).rating = .vNum 7 ∧
    (∀ q : ℚ, ({ rating := .vStr "4.5" } : RawRecord).rating ≠ .vNum q) ∧
    (V0.normalize 0 "" 0 { rating := .vStr "4.5" }).rating = .vNull := by
  refine ⟨rfl, (c4_rating_typeof 0 "" 0 _).1 7 rfl, fun q h => by simp at h, ?_⟩
  exact (c4_rating_typeof 0 "" 0 _).2 (fun q h => by simp at h)

/-! Section: C5 — lat/lng coerced to a number, NaN and non-numeric become 0 -/

/-- Claim C5. In the `part_000` revision (lines 81–82): the normalized
`lat` and `lng` are the raw values put through the `Number(...)` coercion,
with a `NaN` outcome (non-numeric input) replaced by `0`. -/
theorem c5_lat_lng_coerced (ts : ℕ) (today : String) (i : ℕ) (item : RawRecord) :
    ((toNumber item.lat = .nan → (V0.normalize ts today i item).lat = .vNum 0) ∧
      (∀ q : ℚ, toNumber item.lat = .val q → (V0.normalize ts today i item).lat = .vNum q)) ∧
    ((toNumber item.lng = .nan → (V0.normalize ts today i item).lng = .vNum 0) ∧
      (∀ q : ℚ, toNumber item.lng = .val q → (V0.normalize ts today i item).lng = .vNum q)) := by
  refine ⟨⟨fun h => ?_, fun q h => ?_⟩, ⟨fun h => ?_, fun q h => ?_⟩⟩ <;>
    · first
      | (show JSValue.vNum (numOr0 (toNumber item.lat)) = _; rw [h]; rfl)
      | (show JSValue.vNum (numOr0 (toNumber item.lng)) = _; rw [h]; rfl)

/-- Witness for C5: a non-numeric `lat` collapses to `0`, a numeric `lng`
comes through the coercion unchanged. -/
theorem c5_lat_lng_coerced_witness :
    toNumber ({ lat := .vStr "abc", lng := .vNum 5 } : RawRecord).lat = .nan ∧
    (V0.normalize 0 "" 0 { lat := .vStr "abc", lng := .vNum 5 }).lat = .vNum 0 ∧
    toNumber ({ lat := .vStr "abc", lng := .vNum 5 } : RawRecord).lng = .val 5 ∧
    (V0.normalize 0 "" 0 { lat := .vStr "abc", lng := .vNum 5 }).lng = .vNum 5 := by
  refine ⟨by decide, (c5_lat_lng_coerced 0 "" 0 _).1.1 (by decide), rfl, ?_⟩
  exact (c5_lat_lng_coerced 0 "" 0 _).2.2 5 rfl

/-! Section: C3 — primary failure falls back; fallback failure yields `[]` -/

/-- Claim C3. In `src/services/businessService.ts` (lines 120–123 and
159–161): when the primary retrieval throws any (non-credential) error,
`quickFallback` is invoked; a successful fallback's mapped result — of
the same length as the fallback's record array — is returned to the
caller; a failing fallback yields the empty list; and in every such case
the call resolves (no exception reaches the caller). -/
theorem c3_fallback_flow (env : Env) (msg : String)
    (hp : env.primary = .error msg)
    (_hnc : isMissingCredentialError msg = false) :
    (Main.findBusinessLeads env).fallbackInvoked = true ∧
    (∀ items, env.fallback = .ok items →
      (Main.findBusinessLeads env).result = .ok (Main.fbBatch env.now env.today items) ∧
      (Main.fbBatch env.now env.today items).length = items.length) ∧
    (∀ e, env.fallback = .error e → (Main.findBusinessLeads env).result = .ok []) ∧
    ∃ leads, (Main.findBusinessLeads env).result = .ok leads := by
  unfold Main.findBusinessLeads
  rw [hp]
  cases hf : env.fallback with
  | ok items =>
      refine ⟨rfl, ?_, ?_, ⟨_, rfl⟩⟩
      · intro items' h
        cases h
        exact ⟨rfl, mapIdxFrom_length _ _ _⟩
      · intro e h
        exact nomatch h
  | error e =>
      refine ⟨rfl, ?_, fun e' _ => rfl, ⟨[], rfl⟩⟩
      intro items' h
      exact nomatch h

/-- Witness for C3 at a concrete environment: the primary throws `boom`,
the fallback parses two records, and the caller sees exactly two leads. -/
theorem c3_fallback_flow_witness :
    isMissingCredentialError "boom" = false ∧
    (Main.findBusinessLeads ⟨some "k", .error "boom", .ok [{}, {}], fun _ => 0, "d"⟩).fallbackInvoked
      = true ∧
    (Main.findBusinessLeads ⟨some "k", .error "boom", .ok [{}, {}], fun _ => 0, "d"⟩).result =
      .ok (Main.fbBatch (fun _ => 0) "d" [{}, {}]) ∧
    (Main.fbBatch (fun _ => 0) "d" [{}, {}]).length = 2 := by
  have h := c3_fallback_flow ⟨some "k", .error "boom", .ok [{}, {}], fun _ => 0, "d"⟩
    "boom" rfl (by decide)
  exact ⟨by decide, h.1, (h.2.1 [{}, {}] rfl).1, (h.2.1 [{}, {}] rfl).2⟩

/-! Section: C10 — the fallback phone filter is strictly weaker -/

/-- Claim C10. In `src/services/businessService.ts`: every phone the
fallback mapper (lines 139–158) nulls is also nulled by the primary
normalizer (lines 74–95), but not conversely — the all-zeros placeholder
`0000000000` is nulled by the primary path and kept verbatim by the
fallback path, so the two normalizations differ on the phone field. -/
theorem c10_fallback_filter_weaker :
    (∀ ts today i item, (Main.fbNormalize ts today i item).phone = .vNull →
      (Main.normalize ts today i item).phone = .vNull) ∧
    (Main.normalize 0 "" 0 { phone := .vStr "0000000000" }).phone = .vNull ∧
    (Main.fbNormalize 0 "" 0 { phone := .vStr "0000000000" }).phone = .vStr "0000000000" := by
  refine ⟨?_, by decide, by decide⟩
  intro ts today i item h
  show Main.phoneFilter item.phone = .vNull
  have h' : Main.fbPhone item.phone = .vNull := h
  cases hv : item.phone with
  | vStr s =>
      rw [hv] at h'
      simp only [Main.fbPhone] at h'
      simp only [Main.phoneFilter]
      split at h'
      · next hc =>
          rw [if_pos]
          simp only [Bool.or_eq_true] at hc ⊢
          tauto
      · exact absurd h' (by simp)
  | vUndefined => rfl
  | vNull => rfl
  | vBool b => rfl
  | vNum q => rfl

/-- Witness for C10's universally quantified part, at the fallback-nulled
phone `" NA "`. -/
theorem c10_fallback_filter_weaker_witness :
    (Main.fbNormalize 0 "" 0 { phone := .vStr " NA " }).phone = .vNull ∧
    (Main.normalize 0 "" 0 { phone := .vStr " NA " }).phone = .vNull := by
  refine ⟨by decide, ?_⟩
  exact c10_fallback_filter_weaker.1 0 "" 0 { phone := .vStr " NA " } (by decide)

/-! Section: C7 — order-sensitive (city, categories) de-duplication -/

/-- Claim C7. For the history update of `src/App.tsx` (lines 122–127):
after recording an entry, exactly one entry with its `(city, categories)`
key is present — the new one, any matching prior entry having been
removed; while two successive recordings that share the city but list the
categories in different orders leave both entries present. -/
theorem c7_history_dedup_order_sensitive (entry e₁ e₂ : SearchHistoryEntry)
    (prev : List SearchHistoryEntry) :
    ((History.record entry prev).filter fun h =>
      h.query.city == entry.query.city && h.query.categories == entry.query.categories) =
        [entry] ∧
    (e₁.query.city = e₂.query.city → e₁.query.categories ≠ e₂.query.categories →
      History.record e₂ (History.record e₁ []) = [e₂, e₁]) := by
  constructor
  · show List.filter _ (entry :: _) = [entry]
    rw [List.filter_cons_of_pos (by simp)]
    have h0 : List.filter (fun h =>
        h.query.city == entry.query.city && h.query.categories == entry.query.categories)
        ((List.filter (fun h =>
          !(h.query.city == entry.query.city && h.query.categories == entry.query.categories))
          prev).take 14) = [] := by
      rw [List.filter_eq_nil_iff]
      intro a ha
      have hm := List.mem_filter.mp (List.take_subset _ _ ha)
      have := hm.2
      simp at this ⊢
      tauto
    rw [h0]
  · intro hcity hcats
    have h1 : History.record e₁ [] = [e₁] := rfl
    rw [h1]
    show e₂ :: (List.filter _ [e₁]).take 14 = [e₂, e₁]
    rw [List.filter_cons_of_pos (by simp [hcity, hcats])]
    rfl

/-- Witness for C7's second half: same city, categories reordered —
both entries survive. -/
theorem c7_history_dedup_order_sensitive_witness :
    History.record ⟨"2", ⟨"Pune", ["b", "a"], 20⟩, "t2", 5⟩
        (History.record ⟨"1", ⟨"Pune", ["a", "b"], 10⟩, "t1", 3⟩ []) =
      [⟨"2", ⟨"Pune", ["b", "a"], 20⟩, "t2", 5⟩, ⟨"1", ⟨"Pune", ["a", "b"], 10⟩, "t1", 3⟩] := by
  exact (c7_history_dedup_order_sensitive ⟨"1", ⟨"Pune", ["a", "b"], 10⟩, "t1", 3⟩
    ⟨"1", ⟨"Pune", ["a", "b"], 10⟩, "t1", 3⟩ ⟨"2", ⟨"Pune", ["b", "a"], 20⟩, "t2", 5⟩ []).2
    rfl (by decide)

/-! Section: C8 — the history never exceeds 15 entries -/

/-- Claim C8. For the history update of `src/App.tsx` (lines 122–127):
starting from any list of at most 15 entries, any sequence of `record`
calls leaves at most 15 entries (the most recent ones — the newest entry
is put in front and at most 14 older ones are kept). -/
theorem c8_history_capped (init calls : List SearchHistoryEntry)
    (h : init.length ≤ 15) :
    (calls.foldl (fun hist e => History.record e hist) init).length ≤ 15 := by
  induction calls generalizing init with
  | nil => exact h
  | cons e rest ih =>
      apply ih
      show (History.record e init).length ≤ 15
      simp only [History.record, List.length_cons, List.length_take]
      have := Nat.min_le_left 14
        (List.filter (fun h =>
          !(h.query.city == e.query.city && h.query.categories == e.query.categories))
            init).length
      omega

/-- Witness for C8 at a concrete small history. -/
theorem c8_history_capped_witness :
    ([(⟨"1", ⟨"Pune", ["a"], 10⟩, "t1", 3⟩ : SearchHistoryEntry)].foldl
      (fun hist e => History.record e hist) []).length ≤ 15 := by
  exact c8_history_capped [] [⟨"1", ⟨"Pune", ["a"], 10⟩, "t1", 3⟩] (by simp)

/-! Section: C2 — the part_001 phone plausibility filter -/

theorem filter_isDigit_dropWhile_jsWS (l : List Char) :
    (l.dropWhile jsWS).filter Char.isDigit = l.filter Char.isDigit := by
  induction l with
  | nil => rfl
  | cons c rest ih =>
      by_cases h : jsWS c = true
      · have hcd : Char.isDigit c = false := by
          simp only [jsWS, Bool.or_eq_true, decide_eq_true_eq] at h
          rcases h with ((h | h) | h) | h <;> subst h <;> rfl
        rw [List.dropWhile_cons_of_pos h, ih, List.filter_cons_of_neg (by simp [hcd])]
      · rw [List.dropWhile_cons_of_neg h]

/-- Trimming only removes whitespace, so it does not change the digit
string. -/
theorem digitsOf_jsTrim (s : String) : digitsOf (jsTrim s) = digitsOf s := by
  show (((s.toList.dropWhile jsWS).reverse.dropWhile jsWS).reverse).filter Char.isDigit =
    s.toList.filter Char.isDigit
  rw [List.filter_reverse, filter_isDigit_dropWhile_jsWS, List.filter_reverse,
    List.reverse_reverse, filter_isDigit_dropWhile_jsWS]

/-- Claim C2, counterexample. The claim fails as stated on the `part_001`
filter: the phone string `" "` has zero digits — fewer than 7 — yet the
normalized phone is the empty string, not `null`, because
`String(item.phone).trim()` yields `""`, which is falsy and skips the
`if (phone)` filter entirely. -/
theorem c2_phone_counterexample :
    (digitsOf " ").length < 7 ∧
    (V1.normalize 0 "" 0 { phone := .vStr " " }).phone = .vStr "" ∧
    (V1.normalize 0 "" 0 { phone := .vStr " " }).phone ≠ .vNull := by
  refine ⟨by decide, ?_, ?_⟩
  · show V1.phoneFilter (.vStr " ") = _
    decide
  · show V1.phoneFilter (.vStr " ") ≠ _
    decide

/-- Claim C2, amended. For the `part_001` normalizer (lines 79–94), for
every raw record whose phone is a string that does **not** trim to the
empty string: if its digit string has fewer than 7 digits or is a single
repeated digit, the normalized phone is `null`; and every plausible
10-digit non-repeating phone string is preserved as the trimmed original,
formatting and punctuation included.  (A phone that trims to empty
becomes the empty string instead of `null` — the counterexample above.) -/
theorem c2_phone_amended (ts : ℕ) (today : String) (i : ℕ)
    (item : RawRecord) (s : String)
    (hp : item.phone = .vStr s) (hne : jsTrim s ≠ "") :
    (((digitsOf s).length < 7 ∨ repeatedRun (digitsOf s) = true) →
      (V1.normalize ts today i item).phone = .vNull) ∧
    (plausible10 s = true →
      (V1.normalize ts today i item).phone = .vStr (jsTrim s)) := by
  have hphone : (V1.normalize ts today i item).phone = V1.phoneFilter item.phone := rfl
  rw [hphone, hp]
  have hs : s ≠ "" := fun h => hne (by rw [h]; rfl)
  have htrue : jsTruthy (.vStr s) = true := by simp [jsTruthy, hs]
  have hbeq : (jsTrim s == "") = false := by simp [hne]
  constructor
  · intro hcond
    simp only [V1.phoneFilter, htrue, if_true, jsToString, hbeq, Bool.false_eq_true,
      if_false, digitsOf_jsTrim]
    rw [if_pos]
    simp only [Bool.or_eq_true, decide_eq_true_eq]
    tauto
  · intro hpl
    simp only [plausible10, Bool.and_eq_true, beq_iff_eq, bne_iff_ne,
      Bool.not_eq_true'] at hpl
    obtain ⟨⟨⟨⟨⟨h10, hrep⟩, hseq⟩, hnull⟩, hnf⟩, hhid⟩ := hpl
    simp only [V1.phoneFilter, htrue, if_true, jsToString, hbeq, Bool.false_eq_true,
      if_false]
    rw [if_neg]
    simp only [Bool.or_eq_true, decide_eq_true_eq, beq_iff_eq]
    push_neg
    refine ⟨⟨⟨⟨⟨by omega, by simp [hrep]⟩, hseq⟩, by simp [hnull]⟩, by simp [hnf]⟩,
      by simp [hhid]⟩

/-- Witness for C2 (amended): a 6-digit phone is nulled, a plausible
formatted 10-digit phone is preserved trimmed verbatim. -/
theorem c2_phone_amended_witness :
    (jsTrim " 123 456 " ≠ "" ∧ (digitsOf " 123 456 ").length < 7 ∧
      (V1.normalize 0 "" 0 { phone := .vStr " 123 456 " }).phone = .vNull) ∧
    (jsTrim "(982) 555-0199" ≠ "" ∧ plausible10 "(982) 555-0199" = true ∧
      (V1.normalize 0 "" 0 { phone := .vStr "(982) 555-0199" }).phone =
        .vStr (jsTrim "(982) 555-0199")) := by
  refine ⟨⟨by decide, by decide, ?_⟩, ⟨by decide, by decide, ?_⟩⟩
  · exact (c2_phone_amended 0 "" 0 _ " 123 456 " rfl (by decide)).1 (Or.inl (by decide))
  · exact (c2_phone_amended 0 "" 0 _ "(982) 555-0199" rfl (by decide)).2 (by decide)

/-! Section: C9 — ids are pairwise distinct within one batch -/

theorem digitChar_toNat (n : ℕ) (h : n < 10) : (Nat.digitChar n).toNat = 48 + n := by
  interval_cases n <;> rfl

theorem natChars_no_dash (n : ℕ) : ∀ c ∈ natChars n, c ≠ '-' := by
  induction n using Nat.strong_induction_on with
  | _ n ih =>
      rw [natChars]
      split
      · next h =>
          intro c hc
          rw [List.mem_singleton] at hc
          subst hc
          interval_cases n <;> decide
      · next h =>
          intro c hc
          rw [List.mem_append] at hc
          rcases hc with hc | hc
          · exact ih (n / 10) (Nat.div_lt_self (by omega) (by omega)) c hc
          · rw [List.mem_singleton] at hc
            subst hc
            have h10 : n % 10 < 10 := Nat.mod_lt _ (by omega)
            interval_cases hm : n % 10 <;> decide

theorem digitsVal_natChars (n : ℕ) : digitsVal (natChars n) = n := by
  induction n using Nat.strong_induction_on with
  | _ n ih =>
      rw [natChars]
      split
      · next h =>
          show 10 * 0 + ((Nat.digitChar n).toNat - 48) = n
          rw [digitChar_toNat n h]
          omega
      · next h =>
          show List.foldl _ 0 (_ ++ [_]) = n
          rw [List.foldl_append]
          show 10 * digitsVal (natChars (n / 10)) + ((Nat.digitChar (n % 10)).toNat - 48) = n
          rw [ih (n / 10) (Nat.div_lt_self (by omega) (by omega)),
            digitChar_toNat _ (Nat.mod_lt _ (by omega))]
          omega

theorem natChars_injective : Function.Injective natChars := by
  intro m n h
  have hm := digitsVal_natChars m
  rw [h, digitsVal_natChars n] at hm
  omega

theorem takeWhile_append_of (p : Char → Bool) (l : List Char) (c : Char) (r : List Char)
    (hl : ∀ x ∈ l, p x = true) (hc : p c = false) :
    (l ++ c :: r).takeWhile p = l := by
  induction l with
  | nil => simp [List.takeWhile_cons, hc]
  | cons a as ih =>
      have ha := hl a (by simp)
      simp only [List.cons_append, List.takeWhile_cons, ha, if_true]
      rw [ih (fun x hx => hl x (by simp [hx]))]

/-- The index is recoverable from an id string (it is the run after the
last `-`, and the decimal digits determine it), so `mkId` is injective in
the index whatever the timestamps were. -/
theorem mkId_inj_idx (tag : String) (ts₁ i₁ ts₂ i₂ : ℕ)
    (h : mkId tag ts₁ i₁ = mkId tag ts₂ i₂) : i₁ = i₂ := by
  have h' : ((tag.toList ++ natChars ts₁) ++ ['-']) ++ natChars i₁ =
      ((tag.toList ++ natChars ts₂) ++ ['-']) ++ natChars i₂ :=
    congrArg String.toList h
  have h'' := congrArg List.reverse h'
  simp only [List.reverse_append, List.reverse_cons, List.reverse_nil, List.nil_append,
    List.append_assoc, List.singleton_append, List.cons_append] at h''
  have hp : ∀ j : ℕ, ∀ x ∈ (natChars j).reverse, (!(x == '-')) = true := by
    intro j x hx
    simp only [Bool.not_eq_true', beq_eq_false_iff_ne, ne_eq]
    exact natChars_no_dash j x (List.mem_reverse.mp hx)
  have e₁ := takeWhile_append_of (fun x => !(x == '-')) (natChars i₁).reverse '-'
    ((natChars ts₁).reverse ++ tag.toList.reverse) (hp i₁) (by decide)
  have e₂ := takeWhile_append_of (fun x => !(x == '-')) (natChars i₂).reverse '-'
    ((natChars ts₂).reverse ++ tag.toList.reverse) (hp i₂) (by decide)
  have : (natChars i₁).reverse = (natChars i₂).reverse := by
    rw [← e₁, ← e₂, h'']
  exact natChars_injective (List.reverse_injective this)

theorem mem_idxFrom {m k n : ℕ} (h : m ∈ idxFrom k n) : k ≤ m := by
  induction n generalizing k with
  | zero => cases h
  | succ n ih =>
      rcases List.mem_cons.mp h with h | h
      · omega
      · have := ih h
        omega

theorem nodup_idxFrom (k n : ℕ) : (idxFrom k n).Nodup := by
  induction n generalizing k with
  | zero => exact List.nodup_nil
  | succ n ih =>
      rw [idxFrom, List.nodup_cons]
      exact ⟨fun h => by have := mem_idxFrom h; omega, ih (k + 1)⟩

theorem normalizeBatch_ids (tsOf : ℕ → ℕ) (today : String) (items : List RawRecord) (k : ℕ) :
    (mapIdxFrom (fun i item => Main.normalize (tsOf i) today i item) k items).map Lead.id =
      (idxFrom k items.length).map (fun i => mkId "lead-" (tsOf i) i) := by
  induction items generalizing k with
  | nil => rfl
  | cons a as ih =>
      show mkId "lead-" (tsOf k) k :: _ = mkId "lead-" (tsOf k) k :: _
      rw [ih (k + 1)]

/-- Claim C9. The ids of one normalized batch
(`src/services/businessService.ts`, line 101: `` `lead-${Date.now()}-${index}` ``)
are pairwise distinct, even if the clock ticks while the batch is being
mapped: the map index is embedded in the id and is recoverable from it. -/
theorem c9_batch_ids_distinct (tsOf : ℕ → ℕ) (today : String) (items : List RawRecord) :
    ((Main.normalizeBatch tsOf today items).map Lead.id).Nodup := by
  rw [Main.normalizeBatch, normalizeBatch_ids]
  exact (nodup_idxFrom 0 items.length).map
    (fun a b hab => mkId_inj_idx "lead-" (tsOf a) a (tsOf b) b hab)

/-! Section: C6 — distance annotation, truthiness guards, haversine -/

theorem calculateDistance_eq_haversineSpec (lat1 lon1 lat2 lon2 : ℝ)
    (h1 : lat1 ≠ 0) (h2 : lon1 ≠ 0) (h3 : lat2 ≠ 0) (h4 : lon2 ≠ 0) :
    calculateDistance lat1 lon1 lat2 lon2 = haversineSpec lat1 lon1 lat2 lon2 := by
  rw [calculateDistance, if_neg]
  · rfl
  · push_neg
    exact ⟨h1, h2, h3, h4⟩

/-- The haversine value at the concrete pair used below: origin on the
equator at longitude 77, lead at the north pole on the same meridian —
a quarter of a great circle. -/
theorem haversineSpec_pole : haversineSpec 0 77 90 77 = 6371 * (Real.pi / 2) := by
  simp only [haversineSpec]
  have h₁ : ((90 : ℝ) - 0) * (Real.pi / 180) / 2 = Real.pi / 4 := by ring
  have h₂ : ((77 : ℝ) - 77) * (Real.pi / 180) / 2 = 0 := by ring
  have h₃ : (0 : ℝ) * (Real.pi / 180) = 0 := by ring
  have h₄ : (90 : ℝ) * (Real.pi / 180) = Real.pi / 2 := by ring
  rw [h₁, h₂, h₃, h₄, Real.sin_zero, Real.cos_zero, Real.cos_pi_div_two,
    Real.sin_pi_div_four]
  have h₅ : Real.sqrt 2 / 2 * (Real.sqrt 2 / 2) = 1 / 2 := by
    rw [div_mul_div_comm, Real.mul_self_sqrt (by norm_num : (0:ℝ) ≤ 2)]
    norm_num
  rw [h₅]
  have h₆ : (1 : ℝ) / 2 + 1 * 0 * (0 * 0) = 1 / 2 := by ring
  rw [h₆]
  have h₇ : (1 : ℝ) - 1 / 2 = 1 / 2 := by norm_num
  rw [h₇]
  have h₈ : atan2 (Real.sqrt (1 / 2)) (Real.sqrt (1 / 2)) = Real.pi / 4 := by
    have hpos : (0 : ℝ) < Real.sqrt (1 / 2) := Real.sqrt_pos.mpr (by norm_num)
    rw [atan2, if_pos hpos, div_self (ne_of_gt hpos), Real.arctan_one]
  rw [h₈]
  ring

/-- Claim C6, counterexample. The claim fails as stated: it quantifies over
every origin, but `calculateDistance`'s truthiness guard also
short-circuits on a **zero origin coordinate**.  With the origin on the
equator (`lat = 0`) and a lead with both coordinates truthy, the
annotated distance is `0`, not the haversine value (which is a quarter
great-circle, `6371·π/2`, for the input below). -/
theorem c6_distance_annotation_counterexample :
    ¬ ∀ (o : Origin) (lead : DLead), lead.lat ≠ 0 → lead.lng ≠ 0 →
      (annotateLead (some o) lead).distance =
        some (haversineSpec o.lat o.lng lead.lat lead.lng) := by
  intro hclaim
  have h := hclaim ⟨0, 77⟩ ⟨"x", none, 90, 77, none⟩ (by norm_num) (by norm_num)
  have hc : (annotateLead (some ⟨0, 77⟩) (⟨"x", none, 90, 77, none⟩ : DLead)).distance
      = some 0 := by
    rw [annotateLead]
    rw [if_pos (by norm_num)]
    show some (calculateDistance 0 77 90 77) = some 0
    rw [calculateDistance, if_pos (Or.inl rfl)]
  rw [hc, haversineSpec_pole] at h
  have h0 : (0 : ℝ) = 6371 * (Real.pi / 2) := Option.some.inj h
  have hpi : (0 : ℝ) < 6371 * (Real.pi / 2) := by positivity
  linarith

/-- Claim C6, amended. For every lead list and every origin **whose own
coordinates are both truthy**, the annotation of `src/App.tsx`
(lines 103–108) computes the haversine distance (Earth radius 6371 km)
exactly for the leads whose `lat` and `lng` are both truthy; a lead with
`lat = 0` or `lng = 0` is returned unchanged (its distance stays `null`).
When an origin coordinate is zero, truthy-coordinate leads instead
receive distance `0` (the counterexample above) — that is the only way
the original claim fails. -/
theorem c6_distance_annotation_amended (o : Origin) (leads : List DLead)
    (h₁ : o.lat ≠ 0) (h₂ : o.lng ≠ 0) :
    annotate (some o) leads = leads.map (fun lead =>
      if lead.lat ≠ 0 ∧ lead.lng ≠ 0 then
        { lead with distance := some (haversineSpec o.lat o.lng lead.lat lead.lng) }
      else lead) := by
  unfold annotate
  congr 1
  funext lead
  rw [annotateLead]
  by_cases h : lead.lat ≠ 0 ∧ lead.lng ≠ 0
  · rw [if_pos h, if_pos h, calculateDistance_eq_haversineSpec _ _ _ _ h₁ h₂ h.1 h.2]
  · rw [if_neg h, if_neg h]

/-- Witness for C6 (amended) at a truthy origin, one truthy lead and one
zero-coordinate lead. -/
theorem c6_distance_annotation_amended_witness :
    ((1 : ℝ) ≠ 0) ∧
    annotate (some ⟨1, 1⟩) [⟨"a", none, 2, 3, none⟩, ⟨"b", none, 0, 5, none⟩] =
      [⟨"a", none, 2, 3, some (haversineSpec 1 1 2 3)⟩, ⟨"b", none, 0, 5, none⟩] := by
  refine ⟨by norm_num, ?_⟩
  rw [c6_distance_annotation_amended ⟨1, 1⟩ _ (by norm_num) (by norm_num)]
  simp only [List.map_cons, List.map_nil]
  rw [if_pos (by norm_num), if_neg (by simp)]

end EasyLead



